import Mathlib

/-
Verification of the pacswg workload generator (pacswg/wg.py).

The generator is shallow-embedded as a state machine over exact rationals.
Each Python method becomes a Lean function from the generator state to a new
state, possibly paired with its Python return value and a trace of observable
effects (tokens enqueued, sleeps performed, work-function invocations and
result appends).  The default random inter-arrival sampler is modelled
separately over the reals via the inverse-CDF transform.
-/

namespace Pacswg

/-- One worker thread of the pool (wg.py, class WorkerThread).  Only the
fields the orchestrator observes are modelled: the cooperative stop flag set
by stop_workers and whether the underlying thread is still alive (a joined
thread is no longer alive). -/
structure WorkerThread where
  stop_signal : Bool
  alive : Bool
deriving DecidableEq, Repr

/-- Observable effects of one operation: a token enqueued on the dispatch
queue (q.put), a sleep of the given duration (time.sleep), one invocation of
the user work function (worker_func()), and one append of a result to the
shared stats list (temp_stats.append). -/
inductive Eff where
  | enq (item : Option Nat)
  | sleepFor (d : ℚ)
  | invokeWorker
  | appendRes (r : Nat)
deriving DecidableEq, Repr

/-- State of a WorkloadGenerator instance (wg.py, class WorkloadGenerator).
Fields mirror the attributes set in __init__: rps, worker_threads (None
until start_workers runs), temp_stats, worker_thread_count, worker_func
(modelled by the result value it returns), delay_func, the FIFO queue q of
enqueued items, and the timer.

Modelled from the spec: the fire_timer (pacswg.timer.TimerClass) is not
under src/; the spec describes it as a scoped stopwatch exposing start (tic)
and elapsed-since-start (toc), so it is modelled by recording the wall-clock
time of the last tic; toc at wall-clock time t returns t - fire_timer_start. -/
structure WorkloadGenerator where
  rps : ℚ
  worker_threads : Option (List WorkerThread)
  temp_stats : List Nat
  worker_thread_count : Nat
  worker_func : Nat
  delay_func : ℚ → ℚ
  q : List (Option Nat)
  fire_timer_start : ℚ

namespace WorkloadGenerator

/-- WorkloadGenerator.__init__: stores rps unchanged (no clamping), leaves
worker_threads as None, empties temp_stats and the queue, and runs
prepare_test, i.e. tics the fire timer at construction time t0.  The Python
default arguments are rps = 10/60 and worker_thread_count = 10; the
delay_func argument is the already-resolved sampler (the Python None default
resolves to get_random_wait_time, modelled separately over ℝ below). -/
def init (worker_func : Nat) (rps : ℚ) (delay_func : ℚ → ℚ)
    (worker_thread_count : Nat) (t0 : ℚ) : WorkloadGenerator :=
  { rps := rps
    worker_threads := none
    temp_stats := []
    worker_thread_count := worker_thread_count
    worker_func := worker_func
    delay_func := delay_func
    q := []
    fire_timer_start := t0 }

/-- WorkloadGenerator.get_stats: return self.temp_stats (a pure read). -/
def get_stats (s : WorkloadGenerator) : List Nat :=
  s.temp_stats

/-- WorkloadGenerator.fire: self.q.put(1) — enqueue the token 1 and return. -/
def fire (s : WorkloadGenerator) : WorkloadGenerator × List Eff :=
  ({ s with q := s.q ++ [some 1] }, [Eff.enq (some 1)])

/-- WorkloadGenerator.reset_stats: self.temp_stats = []; return True. -/
def reset_stats (s : WorkloadGenerator) : WorkloadGenerator × Bool :=
  ({ s with temp_stats := [] }, true)

/-- WorkloadGenerator.set_rps: clamp new_rps below 1/60 up to 1/60, store
it, return True. -/
def set_rps (s : WorkloadGenerator) (new_rps : ℚ) : WorkloadGenerator × Bool :=
  ({ s with rps := if new_rps < 1/60 then 1/60 else new_rps }, true)

/-- WorkloadGenerator.prepare_test: self.fire_timer.tic() at wall-clock
time t. -/
def prepare_test (s : WorkloadGenerator) (t : ℚ) : WorkloadGenerator :=
  { s with fire_timer_start := t }

/-- WorkloadGenerator.fire_wait: tic the fire timer (at wall-clock time
tCall, the beginning of the call), fire one token, compute
wait_time = delay_func(rps) - toc (toc evaluated at wall-clock time tToc),
and sleep for wait_time iff it is positive. -/
def fire_wait (s : WorkloadGenerator) (tCall tToc : ℚ) :
    WorkloadGenerator × List Eff :=
  let s1 := s.prepare_test tCall
  let fr := s1.fire
  let wait_time := fr.1.delay_func fr.1.rps - (tToc - fr.1.fire_timer_start)
  if 0 < wait_time then (fr.1, fr.2 ++ [Eff.sleepFor wait_time])
  else (fr.1, fr.2)

/-- WorkloadGenerator.stop_workers: if worker_threads is not None, set every
worker's stop_signal and join every worker (a joined worker is no longer
alive), then return True; if worker_threads is None, do nothing and return
True. -/
def stop_workers (s : WorkloadGenerator) : WorkloadGenerator × Bool :=
  match s.worker_threads with
  | none => (s, true)
  | some ws =>
      ({ s with
          worker_threads := some (ws.map (fun _ => ⟨true, false⟩)) }, true)

/-- WorkloadGenerator.start_workers: first run stop_workers, then spawn
worker_thread_count fresh started workers (stop_signal clear, alive). -/
def start_workers (s : WorkloadGenerator) : WorkloadGenerator :=
  let s1 := s.stop_workers.1
  { s1 with
      worker_threads := some (List.replicate s1.worker_thread_count ⟨false, true⟩) }

end WorkloadGenerator

/-- One iteration of the body of WorkerThread.run: q.get with a timeout —
an empty queue raises queue.Empty, whereupon the worker sleeps .01 s and
continues; a dequeued None makes it sleep .01 s and continue; a dequeued
non-None token makes it invoke worker_func once and append the result to
temp_stats. -/
def WorkerThread.run_step (s : WorkloadGenerator) :
    WorkloadGenerator × List Eff :=
  match s.q with
  | [] => (s, [Eff.sleepFor (1/100)])
  | none :: rest => ({ s with q := rest }, [Eff.sleepFor (1/100)])
  | some _ :: rest =>
      ({ s with q := rest, temp_stats := s.temp_stats ++ [s.worker_func] },
       [Eff.invokeWorker, Eff.appendRes s.worker_func])

/-- States reachable from a given starting state by any sequence of API
calls and worker-loop iterations. -/
inductive ReachableFrom (s0 : WorkloadGenerator) : WorkloadGenerator → Prop where
  | base : ReachableFrom s0 s0
  | set_rps {s} (r : ℚ) : ReachableFrom s0 s → ReachableFrom s0 (s.set_rps r).1
  | fire {s} : ReachableFrom s0 s → ReachableFrom s0 s.fire.1
  | fire_wait {s} (a b : ℚ) :
      ReachableFrom s0 s → ReachableFrom s0 (s.fire_wait a b).1
  | start_workers {s} :
      ReachableFrom s0 s → ReachableFrom s0 s.start_workers
  | stop_workers {s} :
      ReachableFrom s0 s → ReachableFrom s0 s.stop_workers.1
  | reset_stats {s} :
      ReachableFrom s0 s → ReachableFrom s0 s.reset_stats.1
  | run_step {s} :
      ReachableFrom s0 s → ReachableFrom s0 (WorkerThread.run_step s).1

/-- States reachable after construction with any arguments followed by any
sequence of API calls and worker-loop iterations. -/
def Reachable (s : WorkloadGenerator) : Prop :=
  ∃ wf rps df wtc t0,
    ReachableFrom (WorkloadGenerator.init wf rps df wtc t0) s

/-- numpy.random.exponential(scale), the external sampler used by
get_random_wait_time, modelled by the inverse-CDF transform of a uniform
draw u ∈ [0,1): it returns scale * (-log (1 - u)), a draw from the
exponential distribution with mean scale. -/
noncomputable def np_random_exponential (scale u : ℝ) : ℝ :=
  scale * (-Real.log (1 - u))

/-- get_random_wait_time (wg.py): scale = 1/rps; return
np.random.exponential(scale). -/
noncomputable def get_random_wait_time (rps u : ℝ) : ℝ :=
  np_random_exponential (1/rps) u

/-- A sample state: a generator constructed with the default rate 10/60,
the default worker count 10, worker result 0, a zero delay sampler, at
wall-clock time 0. -/
def sampleGen : WorkloadGenerator :=
  WorkloadGenerator.init 0 (10/60) (fun _ => 0) 10 0

/-- C1: fire_wait enqueues exactly one admission token, computes
remaining = sampled delay minus the elapsed time since the stopwatch was
started at the beginning of the call, and sleeps for exactly that remaining
time iff it is positive; otherwise it performs no sleep and enqueues no
extra token. -/
theorem fire_wait_spec (s : WorkloadGenerator) (tCall tToc : ℚ) :
    (s.fire_wait tCall tToc).1.q = s.q ++ [some 1] ∧
    (s.fire_wait tCall tToc).2 =
      (if 0 < s.delay_func s.rps - (tToc - tCall)
       then [Eff.enq (some 1), Eff.sleepFor (s.delay_func s.rps - (tToc - tCall))]
       else [Eff.enq (some 1)]) := by
  constructor <;>
    · dsimp only [WorkloadGenerator.fire_wait, WorkloadGenerator.prepare_test,
        WorkloadGenerator.fire]
      split <;> rfl

/-- C3: set_rps always returns True; the stored rate afterwards is the
requested rate clamped up to the floor 1/60 (the floor when the request is
below it, the request itself otherwise), and the sampling call inside the
next fire_wait draws the delay from delay_func applied to that newly stored
rate. -/
theorem set_rps_spec (s : WorkloadGenerator) (r tCall tToc : ℚ) :
    (s.set_rps r).2 = true ∧
    (s.set_rps r).1.rps = (if r < 1/60 then 1/60 else r) ∧
    ((s.set_rps r).1.fire_wait tCall tToc).2 =
      (if 0 < s.delay_func (if r < 1/60 then 1/60 else r) - (tToc - tCall)
       then [Eff.enq (some 1),
             Eff.sleepFor (s.delay_func (if r < 1/60 then 1/60 else r) - (tToc - tCall))]
       else [Eff.enq (some 1)]) := by
  refine ⟨rfl, rfl, ?_⟩
  dsimp only [WorkloadGenerator.set_rps, WorkloadGenerator.fire_wait,
    WorkloadGenerator.prepare_test, WorkloadGenerator.fire]
  split <;> (split <;> rfl)

/-- C5: stop_workers on a generator whose pool has never been started
(worker_threads is None) returns True and leaves the whole state unchanged. -/
theorem stop_workers_noop (s : WorkloadGenerator)
    (h : s.worker_threads = none) : s.stop_workers = (s, true) := by
  unfold WorkloadGenerator.stop_workers
  rw [h]

/-- Witness for C5: a freshly constructed generator has worker_threads =
None, and stop_workers on it returns the state unchanged together with
True. -/
theorem stop_workers_noop_witness :
    sampleGen.worker_threads = none ∧ sampleGen.stop_workers = (sampleGen, true) :=
  ⟨rfl, stop_workers_noop sampleGen rfl⟩

/-- C6: stop_workers is idempotent: it returns True both times, the state
after the second call equals the state after the first, and after the first
call every worker in the pool list has its stop flag set and is no longer
alive. -/
theorem stop_workers_idem (s : WorkloadGenerator) :
    s.stop_workers.2 = true ∧
    s.stop_workers.1.stop_workers.2 = true ∧
    s.stop_workers.1.stop_workers.1 = s.stop_workers.1 ∧
    ((s.stop_workers.1.worker_threads.getD []).all
      (fun w => w.stop_signal && !w.alive)) = true := by
  unfold WorkloadGenerator.stop_workers
  rcases s with ⟨rps, wt, ts, wtc, wf, df, q, ft⟩
  cases wt with
  | none => exact ⟨rfl, rfl, rfl, rfl⟩
  | some ws =>
      refine ⟨rfl, rfl, ?_, ?_⟩
      · simp [List.map_map]
      · simp [List.all_eq_true]

/-- C7: reset_stats empties the result collection and returns True, so
get_stats right after it returns the empty sequence; get_stats itself is a
pure read returning the current collection, and reset_stats changes nothing
but the collection. -/
theorem reset_get_stats_spec (s : WorkloadGenerator) :
    s.reset_stats.2 = true ∧
    s.reset_stats.1.temp_stats = [] ∧
    s.reset_stats.1.get_stats = [] ∧
    s.get_stats = s.temp_stats ∧
    s.reset_stats.1 = { s with temp_stats := [] } :=
  ⟨rfl, rfl, rfl, rfl, rfl⟩

/-- C8: fire enqueues exactly one token (the item 1) at the back of the
dispatch queue, its effect trace is that single enqueue and contains no
sleep, and every other piece of state — the stopwatch, the stored rate, the
delay function, the result collection, the worker pool and its size — is
unchanged. -/
theorem fire_spec (s : WorkloadGenerator) :
    s.fire.1 = { s with q := s.q ++ [some 1] } ∧
    s.fire.2 = [Eff.enq (some 1)] ∧
    s.fire.1.fire_timer_start = s.fire_timer_start ∧
    s.fire.1.rps = s.rps ∧
    s.fire.1.delay_func = s.delay_func ∧
    s.fire.1.temp_stats = s.temp_stats ∧
    s.fire.1.worker_threads = s.worker_threads ∧
    s.fire.1.worker_thread_count = s.worker_thread_count ∧
    (s.fire.2.all (fun e => match e with | Eff.sleepFor _ => false | _ => true)) = true :=
  ⟨rfl, rfl, rfl, rfl, rfl, rfl, rfl, rfl, rfl⟩

/-- C4: start_workers is exactly stop_workers followed by spawning the
fresh pool: after the stop phase every pre-existing worker has its stop
flag set and has been joined (is no longer alive), and the final state
holds exactly worker_thread_count fresh workers, all alive with clear stop
flags, so the two generations never coexist. -/
theorem start_workers_spec (s : WorkloadGenerator) :
    s.start_workers =
      { s.stop_workers.1 with
          worker_threads :=
            some (List.replicate s.worker_thread_count ⟨false, true⟩) } ∧
    ((s.stop_workers.1.worker_threads.getD []).all
      (fun w => w.stop_signal && !w.alive)) = true ∧
    (s.start_workers.worker_threads.getD []).length = s.worker_thread_count ∧
    ((s.start_workers.worker_threads.getD []).all
      (fun w => w.alive && !w.stop_signal)) = true := by
  refine ⟨?_, ?_, ?_, ?_⟩
  · unfold WorkloadGenerator.start_workers WorkloadGenerator.stop_workers
    rcases s with ⟨rps, wt, ts, wtc, wf, df, q, ft⟩
    cases wt <;> rfl
  · unfold WorkloadGenerator.stop_workers
    rcases s with ⟨rps, wt, ts, wtc, wf, df, q, ft⟩
    cases wt with
    | none => rfl
    | some ws => simp [List.all_eq_true]
  · unfold WorkloadGenerator.start_workers WorkloadGenerator.stop_workers
    rcases s with ⟨rps, wt, ts, wtc, wf, df, q, ft⟩
    cases wt <;> simp
  · unfold WorkloadGenerator.start_workers WorkloadGenerator.stop_workers
    rcases s with ⟨rps, wt, ts, wtc, wf, df, q, ft⟩
    cases wt <;> simp [List.all_eq_true]

/-- C10: one iteration of the worker loop: dequeuing None invokes nothing
and appends nothing — the worker just sleeps .01 s and continues — while
dequeuing a non-None token causes exactly one work-function invocation
followed by exactly one append of its result to the collection. -/
theorem run_step_spec (s : WorkloadGenerator) (rest : List (Option Nat)) :
    (s.q = none :: rest →
      WorkerThread.run_step s = ({ s with q := rest }, [Eff.sleepFor (1/100)])) ∧
    (∀ k : Nat, s.q = some k :: rest →
      WorkerThread.run_step s =
        ({ s with q := rest, temp_stats := s.temp_stats ++ [s.worker_func] },
         [Eff.invokeWorker, Eff.appendRes s.worker_func])) := by
  constructor
  · intro h
    unfold WorkerThread.run_step
    rcases s with ⟨rps, wt, ts, wtc, wf, df, q, ft⟩
    simp only at h
    subst h
    rfl
  · intro k h
    unfold WorkerThread.run_step
    rcases s with ⟨rps, wt, ts, wtc, wf, df, q, ft⟩
    simp only at h
    subst h
    rfl

/-- Witness for C10: on a generator whose queue holds a single None the
worker step only sleeps, and on one whose queue holds the token 1 it
invokes the work function once and appends the result once. -/
theorem run_step_spec_witness :
    (WorkerThread.run_step { sampleGen with q := [none] } =
      ({ sampleGen with q := [] }, [Eff.sleepFor (1/100)])) ∧
    (WorkerThread.run_step { sampleGen with q := [some 1] } =
      ({ sampleGen with q := [], temp_stats := sampleGen.temp_stats ++ [sampleGen.worker_func] },
       [Eff.invokeWorker, Eff.appendRes sampleGen.worker_func])) :=
  ⟨(run_step_spec { sampleGen with q := [none] } []).1 rfl,
   (run_step_spec { sampleGen with q := [some 1] } []).2 1 rfl⟩

/-- C2 fails as stated: __init__ stores its rps argument without clamping,
so a generator constructed with rps = 0 is a reachable state whose stored
rate is zero, below the floor 1/60. -/
theorem rps_floor_counterexample :
    Reachable (WorkloadGenerator.init 0 0 (fun _ => 0) 10 0) ∧
    ¬ ((1:ℚ)/60 ≤ (WorkloadGenerator.init 0 0 (fun _ => 0) 10 0).rps) ∧
    (WorkloadGenerator.init 0 0 (fun _ => 0) 10 0).rps = 0 :=
  ⟨⟨0, 0, fun _ => 0, 10, 0, ReachableFrom.base⟩,
   by norm_num [WorkloadGenerator.init], rfl⟩

/-- C2 (amended): starting from any constructed state whose stored rate is
at least the floor 1/60 (the default 10/60 qualifies), every state reachable
by any sequence of set_rps, fire, fire_wait, start_workers, stop_workers,
reset_stats calls and worker-loop iterations keeps a stored rate at least
1/60, hence never zero; the constructor itself does not clamp. -/
theorem rps_floor_invariant (s0 s : WorkloadGenerator)
    (h0 : 1/60 ≤ s0.rps) (h : ReachableFrom s0 s) :
    1/60 ≤ s.rps ∧ s.rps ≠ 0 := by
  have hle : 1/60 ≤ s.rps := by
    induction h with
    | base => exact h0
    | set_rps r _ ih =>
        dsimp only [WorkloadGenerator.set_rps]
        split
        · exact le_refl _
        · next hge => exact le_of_not_lt hge
    | fire _ ih => exact ih
    | fire_wait a b _ ih =>
        dsimp only [WorkloadGenerator.fire_wait, WorkloadGenerator.prepare_test,
          WorkloadGenerator.fire]
        split <;> exact ih
    | start_workers _ ih =>
        rename_i s _
        have : s.start_workers.rps = s.stop_workers.1.rps := rfl
        rw [this]
        dsimp only [WorkloadGenerator.stop_workers]
        rcases s with ⟨rps, wt, ts, wtc, wf, df, q, ft⟩
        cases wt <;> exact ih
    | stop_workers _ ih =>
        rename_i s _
        dsimp only [WorkloadGenerator.stop_workers]
        rcases s with ⟨rps, wt, ts, wtc, wf, df, q, ft⟩
        cases wt <;> exact ih
    | reset_stats _ ih => exact ih
    | run_step _ ih =>
        rename_i s _
        unfold WorkerThread.run_step
        rcases s with ⟨rps, wt, ts, wtc, wf, df, q, ft⟩
        rcases q with _ | ⟨_ | k, rest⟩ <;> exact ih
  exact ⟨hle, by intro h0eq; rw [h0eq] at hle; norm_num at hle⟩

/-- Witness for C2 (amended): from the default construction (rate 10/60),
after set_rps 0 the stored rate is still at least 1/60 and nonzero. -/
theorem rps_floor_invariant_witness :
    (1:ℚ)/60 ≤ (sampleGen.set_rps 0).1.rps ∧ (sampleGen.set_rps 0).1.rps ≠ 0 :=
  rps_floor_invariant sampleGen (sampleGen.set_rps 0).1
    (by norm_num [sampleGen, WorkloadGenerator.init])
    (ReachableFrom.set_rps 0 ReachableFrom.base)

/-- C9: for a positive rate and a uniform draw u ∈ [0, 1), the default
sampler returns a non-negative delay; the draw equals 1/rate (the scale,
i.e. the mean of the sampled exponential distribution) times a standard
exponential draw, and it satisfies the exponential CDF with rate rps: the
delay is at most t exactly when u ≤ 1 - exp (-(rps * t)). -/
theorem get_random_wait_time_spec (rps u : ℝ) (hr : 0 < rps)
    (hu0 : 0 ≤ u) (hu1 : u < 1) :
    0 ≤ get_random_wait_time rps u ∧
    get_random_wait_time rps u = (1/rps) * (-Real.log (1 - u)) ∧
    ∀ t : ℝ, 0 ≤ t →
      (get_random_wait_time rps u ≤ t ↔ u ≤ 1 - Real.exp (-(rps * t))) := by
  have h1u : (0:ℝ) < 1 - u := by linarith
  have hlog : Real.log (1 - u) ≤ 0 := Real.log_nonpos (by linarith) (by linarith)
  refine ⟨?_, rfl, ?_⟩
  · unfold get_random_wait_time np_random_exponential
    have : (0:ℝ) ≤ -Real.log (1 - u) := by linarith
    positivity
  · intro t ht
    unfold get_random_wait_time np_random_exponential
    rw [one_div, inv_mul_eq_div, div_le_iff₀ hr, neg_le,
      Real.le_log_iff_exp_le h1u, mul_comm t rps]
    constructor <;> intro hexp <;> linarith

/-- Witness for C9: at rate 1 with uniform draw 0 the sampled delay is
non-negative, equals the scale 1/1 times the standard draw, and satisfies
the exponential CDF characterization. -/
theorem get_random_wait_time_spec_witness :
    0 ≤ get_random_wait_time 1 0 ∧
    get_random_wait_time 1 0 = (1/1) * (-Real.log (1 - 0)) ∧
    ∀ t : ℝ, 0 ≤ t →
      (get_random_wait_time 1 0 ≤ t ↔ (0:ℝ) ≤ 1 - Real.exp (-(1 * t))) :=
  get_random_wait_time_spec 1 0 (by norm_num) (by norm_num) (by norm_num)

end Pacswg
